import Mathlib

/-!
Shallow embedding of the paginated feed aggregator of InstaLeBot
(src/services/instagram.py) and its resilient HTTP retrieval layer
(src/services/rapidapi.py).

Python JSON values (the decoded bodies handed around by the code) are
modelled by `Json`; Python `None` is `Json.null`.  Code that can raise a
Python exception is modelled in `Except` with error type `PyErr` (type /
attribute / key / index errors raised by wrongly-typed field accesses)
or `UpError` (the exceptions raised by `RapidAPIClient.get`).
-/

inductive Json : Type where
  | null : Json
  | bool : Bool → Json
  | num : Int → Json
  | str : String → Json
  | arr : List Json → Json
  | obj : List (String × Json) → Json
deriving Repr

/-- Errors raised by wrongly-typed Python operations inside the service code. -/
inductive PyErr : Type where
  | typeError : PyErr
  | attributeError : PyErr
  | keyError : PyErr
  | indexError : PyErr
  | recursionError : PyErr
deriving Repr, DecidableEq

/-- First-match lookup in an object's field list (Python dicts cannot repeat
keys; on a repeat-free list this is exactly `d[k]` / `k in d`). -/
def fieldLookup : List (String × Json) → String → Option Json
  | [], _ => none
  | (k', v) :: rest, k => if k' == k then some v else fieldLookup rest k

def Json.lookup : Json → String → Option Json
  | .obj fs, k => fieldLookup fs k
  | _, _ => none

def Json.isObj : Json → Bool
  | .obj _ => true
  | _ => false

/-- Python truthiness of a decoded JSON value (`if x:`). -/
def truthy : Json → Bool
  | .null => false
  | .bool b => b
  | .num n => n != 0
  | .str s => s != ""
  | .arr xs => !xs.isEmpty
  | .obj fs => !fs.isEmpty

/-- Python `a or b` on values: the first truthy operand, else the last. -/
def pyOr2 (a b : Json) : Json := if truthy a then a else b

/-- `d.get(k)` on a value the code has already checked to be a dict
(`None` when the key is absent). -/
def jGet (j : Json) (k : String) : Json := (j.lookup k).getD Json.null

/-- Python `x.get(k, default)` on an arbitrary value: `AttributeError`
unless `x` is a dict. -/
def pyGetD (j : Json) (k : String) (d : Json) : Except PyErr Json :=
  match j with
  | .obj fs => .ok ((fieldLookup fs k).getD d)
  | _ => .error .attributeError

/-- Python `x.get(k)` (default `None`). -/
def pyGet (j : Json) (k : String) : Except PyErr Json := pyGetD j k Json.null

/-- Python `x[0]` on an arbitrary value: first element of a list, first
character of a string, `KeyError` on a dict (JSON objects have no key `0`),
`TypeError` on anything unsubscriptable. -/
def pyIndex0 : Json → Except PyErr Json
  | .arr (x :: _) => .ok x
  | .arr [] => .error .indexError
  | .str s =>
    match s.data with
    | c :: _ => .ok (.str (String.mk [c]))
    | [] => .error .indexError
  | .obj _ => .error .keyError
  | _ => .error .typeError

/-- Python `for x in v`: elements of a list, one-character strings of a
string, the keys of a dict; `TypeError` otherwise. -/
def pyIterE : Json → Except PyErr (List Json)
  | .arr xs => .ok xs
  | .str s => .ok (s.data.map (fun c => Json.str (String.mk [c])))
  | .obj fs => .ok (fs.map (fun kv => Json.str kv.1))
  | _ => .error .typeError

def charsStartWith : List Char → List Char → Bool
  | [], _ => true
  | _ :: _, [] => false
  | a :: as, b :: bs => a == b && charsStartWith as bs

def charsContain (n : List Char) : List Char → Bool
  | [] => charsStartWith n []
  | b :: bs => charsStartWith n (b :: bs) || charsContain n bs

/-- Python equality between decoded JSON values.  Matches CPython on every
value the dedup set can hold (`True == 1`; strings, ints, `None` compare
structurally); containers are compared structurally. -/
def pyEqFuel : Nat → Json → Json → Bool
  | _, .null, .null => true
  | _, .bool a, .bool b => a == b
  | _, .bool a, .num n => (if a then (1 : Int) else 0) == n
  | _, .num n, .bool a => n == (if a then (1 : Int) else 0)
  | _, .num a, .num b => a == b
  | _, .str a, .str b => a == b
  | f + 1, .arr a, .arr b =>
    a.length == b.length && (a.zip b).all (fun p => pyEqFuel f p.1 p.2)
  | f + 1, .obj a, .obj b =>
    a.length == b.length &&
      (a.zip b).all (fun p => p.1.1 == p.2.1 && pyEqFuel f p.1.2 p.2.2)
  | _, _, _ => false

def pyEq (a b : Json) : Bool := pyEqFuel 1000 a b

/-- Python `k in v`: key test on a dict, substring test on a string,
membership on a list, `TypeError` otherwise. -/
def pyIn (k : String) : Json → Except PyErr Bool
  | .obj fs => .ok (fs.any (fun kv => kv.1 == k))
  | .str s => .ok (charsContain k.data s.data)
  | .arr xs => .ok (xs.any (fun x => pyEq (Json.str k) x))
  | _ => .error .typeError

/-- Python `v[k]` with a string key: dict lookup (`KeyError` when absent),
`TypeError` on every other type. -/
def pySubscr (j : Json) (k : String) : Except PyErr Json :=
  match j with
  | .obj fs =>
    match fieldLookup fs k with
    | some v => .ok v
    | none => .error .keyError
  | _ => .error .typeError

/-- Membership in the dedup set (a Python `set`, modelled as the list of
values in insertion order). -/
def pyMem (x : Json) (s : List Json) : Bool := s.any (fun y => pyEq x y)

/-- Only these values are hashable; adding or testing a list/dict against a
Python set raises `TypeError`. -/
def hashable : Json → Bool
  | .arr _ => false
  | .obj _ => false
  | _ => true

/-- Python `str()` of a decoded JSON value (`f"id_{x}"`, `str(caption)`).
The fuel models CPython's recursion limit on nested containers. -/
def pyStrFuel : Nat → Json → String
  | _, .null => "None"
  | _, .bool true => "True"
  | _, .bool false => "False"
  | _, .num n => toString n
  | _, .str s => s
  | 0, .arr _ => ""
  | 0, .obj _ => ""
  | f + 1, .arr xs =>
    "[" ++ String.intercalate ", "
      (xs.map (fun x =>
        match x with
        | .str s => "\x27" ++ s ++ "\x27"
        | _ => pyStrFuel f x)) ++ "]"
  | f + 1, .obj fs =>
    "\x7b" ++ String.intercalate ", "
      (fs.map (fun kv =>
        "\x27" ++ kv.1 ++ "\x27: " ++
          match kv.2 with
          | .str s => "\x27" ++ s ++ "\x27"
          | v => pyStrFuel f v)) ++ "\x7d"

def pyStr (j : Json) : String := pyStrFuel 1000 j

/-- Python `s.strip()`: drop leading and trailing whitespace. -/
def pyWs (c : Char) : Bool :=
  c == ' ' || c == '\t' || c == '\n' || c == '\x0d' || c == '\x0b' || c == '\x0c'

def pyStrip (s : String) : String :=
  String.mk (((s.data.dropWhile pyWs).reverse.dropWhile pyWs).reverse)

example : pyStrip "  ab c\n" = "ab c" := by decide
example : truthy (Json.str "") = false := by decide
example : pyStr (Json.arr [Json.num 1, Json.str "a"]) = "[1, \x27a\x27]" := rfl
example : pyStr (Json.num (-3)) = "-3" := rfl
example : pyEq (Json.bool true) (Json.num 1) = true := by decide
example : charsContain "bc".data "abcd".data = true := by decide
example : charsContain "bd".data "abcd".data = false := by decide

/-!
### InstagramService.extract_image_url  (src/services/instagram.py lines 507-551)

The source recurses into `carousel_media`; the fuel models CPython's
recursion limit (the entry point uses 1000).  Every branch mirrors the
source line by line, including the accesses that raise on wrongly-typed
fields (`media_item["image_versions2"].get(...)` on a non-dict raises
`AttributeError`, `candidates[0]` on a dict raises `KeyError`, and so on).
-/

def extract_image_url_fuel : Nat → Json → Except PyErr Json
  | _, .null => .ok .null
  | _, .bool _ => .ok .null
  | _, .num _ => .ok .null
  | _, .str _ => .ok .null
  | _, .arr _ => .ok .null
  | 0, .obj _ => .error .recursionError
  | f + 1, .obj fs =>
    match fieldLookup fs "image_url" with
    | some v => .ok v
    | none =>
      -- fallthrough chain after the image_versions2 check
      let rest2 : Except PyErr Json :=
        match fieldLookup fs "cover_photo" with
        | some cp => pyGet cp "url"
        | none =>
          match fieldLookup fs "thumbnail_url" with
          | some v => .ok v
          | none =>
            let rest4 : Except PyErr Json :=
              match fieldLookup fs "carousel_media" with
              | some cm =>
                if truthy cm then
                  match cm with
                  | .arr (x :: _) => extract_image_url_fuel f x
                  | .str _ => .ok .null
                  | .obj _ => .error .keyError
                  | _ => .error .typeError
                else .ok .null
              | none => .ok .null
            match fieldLookup fs "video_versions" with
            | some vv =>
              if truthy vv then do
                let v0 ← pyIndex0 vv
                let a ← pyGet v0 "cover_image_url"
                if truthy a then pure a else pyGet v0 "thumbnail_url"
              else rest4
            | none => rest4
      match fieldLookup fs "image_versions2" with
      | some iv => do
        let cands ← pyGetD iv "candidates" (Json.arr [])
        if truthy cands then do
          let c0 ← pyIndex0 cands
          pyGet c0 "url"
        else rest2
      | none => rest2

def extract_image_url (j : Json) : Except PyErr Json :=
  extract_image_url_fuel 1000 j

/-!
### The inline "extract media from items" loop and feed-shape extraction

`get_user_feed` lines 94-132, `get_video_feed` lines 717-753 and
`get_user_reels` lines 882-919 each decode the raw response into a
Python value `posts` / `videos` / `result`.  The `media`-unwrapping loop
appends `item["media"]` for dict items carrying a `media` key, the dict
itself otherwise, and silently skips non-dict items.
-/

def mediaStep (acc : List Json) (it : Json) : List Json :=
  match it with
  | .obj fs =>
    match fieldLookup fs "media" with
    | some m => acc ++ [m]
    | none => acc ++ [it]
  | _ => acc

def unwrapMedia (items : List Json) : List Json :=
  items.foldl mediaStep []

/-- `get_user_feed` lines 94-132: the value bound to `posts`.  The
`"posts"` / `"feed"` branches copy the raw field value without a type
check; the `"user"` edges branch performs unguarded accesses that raise
on wrongly-typed fields. -/
def extract_posts (fd : Json) : Except PyErr Json :=
  match fd with
  | .arr xs => .ok (.arr xs)
  | .obj fs =>
    match fieldLookup fs "data" with
    | some (.obj dfs) =>
      (match fieldLookup dfs "items" with
       | some (.arr its) => .ok (.arr (unwrapMedia its))
       | _ => .ok (.arr []))
    | some (.arr ds) => .ok (.arr ds)
    | _ =>
      match fieldLookup fs "items" with
      | some (.arr its) => .ok (.arr (unwrapMedia its))
      | some _ => .ok (.arr [])
      | none =>
        match fieldLookup fs "posts" with
        | some p => .ok p
        | none =>
          match fieldLookup fs "feed" with
          | some f => .ok f
          | none =>
            match fieldLookup fs "user" with
            | some u => do
              let b ← pyIn "edge_owner_to_timeline_media" u
              if b then do
                let e ← pySubscr u "edge_owner_to_timeline_media"
                let edges ← pyGetD e "edges" (Json.arr [])
                let lst ← pyIterE edges
                let nodes ← lst.mapM (fun ed => pyGetD ed "node" (Json.obj []))
                pure (Json.arr nodes)
              else pure (Json.arr [])
            | none => pure (Json.arr [])
  | _ => .ok (.arr [])

/-- `get_video_feed` lines 717-753: the value bound to `videos`.  Branch
order differs from the post feed (`videos` before `items`, no `feed` or
edges branch); no branch can raise. -/
def extract_videos (fd : Json) : Except PyErr Json :=
  .ok
    (match fd with
     | .arr xs => .arr xs
     | .obj fs =>
       match fieldLookup fs "data" with
       | some (.obj dfs) =>
         (match fieldLookup dfs "items" with
          | some (.arr its) => .arr (unwrapMedia its)
          | _ => .arr [])
       | some (.arr ds) => .arr ds
       | _ =>
         match fieldLookup fs "videos" with
         | some v => v
         | none =>
           match fieldLookup fs "items" with
           | some (.arr its) => .arr (unwrapMedia its)
           | some _ => .arr []
           | none =>
             match fieldLookup fs "posts" with
             | some p => p
             | none => .arr []
     | _ => .arr [])

def filterDicts (xs : List Json) : List Json :=
  xs.filter (fun j => j.isObj)

/-- `get_user_reels` lines 882-919: every branch is `isinstance`-guarded,
list branches keep only dict items, and the `data.items` branch reuses
the media-unwrapping loop. -/
def extract_reels (fd : Json) : List Json :=
  match fd with
  | .arr xs => filterDicts xs
  | .obj fs =>
    match fieldLookup fs "data" with
    | some (.obj dfs) =>
      (match fieldLookup dfs "items" with
       | some (.arr its) => unwrapMedia its
       | _ => [])
    | some (.arr ds) => filterDicts ds
    | _ =>
      match fieldLookup fs "reels" with
      | some (.arr rs) => filterDicts rs
      | some _ => []
      | none =>
        match fieldLookup fs "items" with
        | some (.arr its) => filterDicts its
        | some _ => []
        | none =>
          match fieldLookup fs "videos" with
          | some (.arr vs) => filterDicts vs
          | _ => []
  | _ => []

example : extract_image_url (Json.obj [("image_url", Json.str "u")]) = .ok (.str "u") := rfl
example : extract_image_url (Json.obj [("image_versions2", Json.num 5)]) = .error .attributeError := rfl
example :
    extract_image_url (Json.obj [("image_versions2",
      Json.obj [("candidates", Json.arr [Json.obj [("url", Json.str "q")]])])]) = .ok (.str "q") := rfl
example :
    extract_image_url (Json.obj [("carousel_media",
      Json.arr [Json.obj [("image_url", Json.str "c")]])]) = .ok (.str "c") := rfl
example : extract_image_url (Json.obj [("cover_photo", Json.str "x")]) = .error .attributeError := rfl
example : extract_image_url (Json.str "zz") = .ok .null := rfl
example :
    extract_posts (Json.obj [("data", Json.obj [("items",
      Json.arr [Json.obj [("media", Json.str "m")], Json.obj [("id", Json.num 1)], Json.str "x"])])]) =
    .ok (.arr [Json.str "m", Json.obj [("id", Json.num 1)]]) := rfl
example : extract_posts (Json.obj [("user", Json.num 0)]) = .error .typeError := rfl
example : extract_posts (Json.obj [("zzz", Json.num 0)]) = .ok (.arr []) := rfl
example :
    extract_posts (Json.obj [("user", Json.obj [("edge_owner_to_timeline_media",
      Json.obj [("edges", Json.arr [Json.obj [("node", Json.str "n")]])])])]) =
    .ok (.arr [Json.str "n"]) := rfl

/-!
### The per-item duplicate check  (get_user_feed lines 140-191,
get_video_feed lines 761-812 — textually identical)

State carried across one page: the running `seen_ids` set, the page's
`new_posts`, and the page's `duplicate_found` flag (`seen_ids` persists
across pages; the other two are reset per page).
-/

structure DState : Type where
  seen : List Json
  newPosts : List Json
  dupFound : Bool
deriving Repr

/-- Lines 145-154: the value bound to `post_text` (pure; every access is
`isinstance`-guarded). -/
def post_text_of (post : Json) : Json :=
  match post with
  | .obj fs =>
    match fieldLookup fs "caption" with
    | some c =>
      match c with
      | .obj cfs => (fieldLookup cfs "text").getD (Json.str "")
      | _ => Json.str (pyStr c)
    | none =>
      match fieldLookup fs "text" with
      | some t => t
      | none => Json.str ""
  | _ => Json.str ""

/-- Lines 161-162: `post_text.strip()[:100]` when `post_text` is truthy
(`.strip()` on a truthy non-string raises `AttributeError`), `none` when
`post_text` is falsy. -/
def post_text_key (post : Json) : Except PyErr (Option String) :=
  let t := post_text_of post
  if truthy t then
    match t with
    | .str s => .ok (some (String.mk ((pyStrip s).data.take 100)))
    | _ => .error .attributeError
  else .ok none

/-- Line 157: `extract_image_url(post)` runs only for dict posts
(`post_image_url` stays `None` otherwise). -/
def post_image_of (post : Json) : Except PyErr Json :=
  match post with
  | .obj _ => extract_image_url post
  | _ => .ok .null

/-- Line 180: `post.get("id") or post.get("pk") or post.get("media_id")
or post.get("code")` for dict posts, `None` otherwise. -/
def post_id_of (post : Json) : Json :=
  match post with
  | .obj fs =>
    pyOr2 ((fieldLookup fs "id").getD .null)
      (pyOr2 ((fieldLookup fs "pk").getD .null)
        (pyOr2 ((fieldLookup fs "media_id").getD .null)
          ((fieldLookup fs "code").getD .null)))
  | _ => .null

/-- One iteration of the `for post in posts` loop (lines 140-191).
`extract_image_url` runs before the text-key strip, so its exception
wins when both would raise, as in the source.  A key is recorded only at
the check that reads it, so a duplicate item records nothing at or after
the matching key. -/
def process_post (st : DState) (post : Json) : Except PyErr DState := do
  let img ← post_image_of post
  let tk ← post_text_key post
  -- lines 160-167: duplicate check by text key
  let s1 : Bool × List Json × Bool :=
    match tk with
    | some t =>
      if pyMem (.str t) st.seen then (true, st.seen, true)
      else (false, st.seen ++ [Json.str t], st.dupFound)
    | none => (false, st.seen, st.dupFound)
  -- lines 169-174: duplicate check by image URL
  let s2 : Except PyErr (Bool × List Json × Bool) :=
    if !s1.1 && truthy img then
      if hashable img then
        if pyMem img s1.2.1 then .ok (true, s1.2.1, true)
        else .ok (false, s1.2.1 ++ [img], s1.2.2)
      else .error .typeError
    else .ok s1
  let s2 ← s2
  -- lines 177-188: fallback duplicate check by id key
  let s3 : Bool × List Json × Bool :=
    if s2.1 then s2
    else
      let pid := post_id_of post
      if truthy pid then
        let key := Json.str ("id_" ++ pyStr pid)
        if pyMem key s2.2.1 then (true, s2.2.1, true)
        else (false, s2.2.1 ++ [key], s2.2.2)
      else s2
  pure ⟨s3.2.1, if s3.1 then st.newPosts else st.newPosts ++ [post], s3.2.2⟩

/-- The whole per-page dedup pass, starting from the running seen set
with fresh `new_posts` / `duplicate_found`. -/
def process_page (seen : List Json) (posts : List Json) : Except PyErr DState :=
  posts.foldlM process_post ⟨seen, [], false⟩

/-!
### Cursor extraction  (get_user_feed lines 206-227, get_video_feed
lines 827-848 — textually identical; pure)
-/

def extract_next_max_id (fd : Json) : Json :=
  match fd with
  | .obj _ =>
    let m0 := jGet fd "next_max_id"
    let m1 :=
      if truthy m0 then m0
      else
        match fd.lookup "data" with
        | some d@(.obj _) =>
          let pi := (d.lookup "paging_info").getD (Json.obj [])
          let a :=
            match pi with
            | .obj _ => pyOr2 (jGet pi "max_id") (jGet pi "next_max_id")
            | _ => m0
          if truthy a then a else pyOr2 (jGet d "next_max_id") (jGet d "max_id")
        | _ => m0
    if truthy m1 then m1
    else
      let pg := (fd.lookup "pagination").getD (Json.obj [])
      match pg with
      | .obj _ => pyOr2 (jGet pg "next_max_id") (pyOr2 (jGet pg "next_cursor") (jGet pg "max_id"))
      | _ => m1
  | _ => .null

/-!
### The pagination loop  (get_user_feed lines 75-239, get_video_feed
lines 699-860)

The upstream is an oracle `fetch : Nat → Json → Except UpError Json`
taking the number of calls already made and the cursor passed on this
call; an `.error` models `self.client.get_feed(...)` raising.  The loop
is instrumented with the number of fetch calls issued (second component).
-/

/-- The exceptions `RapidAPIClient.get` can raise (one constructor per
`raise` site in src/services/rapidapi.py lines 126-169).  The four
status-specific constructors correspond to the raise sites at lines
138-146; those branches are DEAD CODE: at line 131
`status_code = e.response.status_code if e.response else None` tests the
truthiness of the response object, and `requests.Response.__bool__`
returns `self.ok`, which is `False` for every status >= 400 — exactly
the statuses for which `raise_for_status` raises — so `status_code` is
always `None` there and no run can produce those four errors
(`rapidapi_no_status_dispatch` below proves it of the model). -/
inductive UpError : Type where
  | invalidJson : UpError
  | rateLimited : UpError
  | notFound : UpError
  | authFailed : UpError
  | badRequest : UpError
  | httpExhausted : UpError
  | timeoutExhausted : UpError
  | connExhausted : UpError
  | reqExhausted : UpError
  | fellThrough : UpError
deriving Repr, DecidableEq

/-- An exception escaping the aggregation: an upstream fetch error or a
Python error raised while decoding / deduplicating. -/
inductive AggErr : Type where
  | up : UpError → AggErr
  | py : PyErr → AggErr
deriving Repr, DecidableEq

structure PageOut : Type where
  newItems : List Json
  dupFound : Bool
  nextCur : Json
deriving Repr

/-- One page body: fetch, decode the item list, dedup (only when the
decoded value is truthy, lines 135-199), and read the next cursor.
Returns the page outcome and the updated seen set. -/
def page_step (ext : Json → Except PyErr Json) (fr : Except UpError Json)
    (seen : List Json) : Except AggErr (PageOut × List Json) := do
  let body ← fr.mapError AggErr.up
  let postsV ← (ext body).mapError AggErr.py
  if truthy postsV then do
    let posts ← (pyIterE postsV).mapError AggErr.py
    let st ← (process_page seen posts).mapError AggErr.py
    pure (⟨st.newPosts, st.dupFound, extract_next_max_id body⟩, st.seen)
  else
    pure (⟨[], false, extract_next_max_id body⟩, seen)

/-- Lines 202: `if max_items and len(all_posts) >= max_items` — Python
truthiness makes `max_items = 0` skip the bound entirely. -/
def maxTrig : Option Nat → Nat → Bool
  | none, _ => false
  | some k, n => decide (0 < k) && decide (k ≤ n)

/-- Line 203: `all_posts[:max_items]`. -/
def takeMax : Option Nat → List Json → List Json
  | none, l => l
  | some k, l => l.take k

/-- The `for page in range(max_pages)` loop.  `fuel` is the number of
pages still allowed, `calls` the fetch calls already made, `cur` the
current cursor (`current_max_id`), `seen` the running dedup set and
`acc` the accumulated result.  Stop conditions in source order:
duplicate-only page (line 194), item bound (line 202), no next cursor
(line 230), page bound (loop exhaustion). -/
def agg_loop (ext : Json → Except PyErr Json) (fetch : Nat → Json → Except UpError Json)
    (maxI : Option Nat) :
    Nat → Nat → Json → List Json → List Json → (Except AggErr (List Json × Json)) × Nat
  | 0, calls, cur, _, acc => (.ok (acc, cur), calls)
  | fuel + 1, calls, cur, seen, acc =>
    match page_step ext (fetch calls cur) seen with
    | .error e => (.error e, calls + 1)
    | .ok (pr, seen') =>
      if pr.dupFound && pr.newItems.isEmpty then (.ok (acc, cur), calls + 1)
      else if maxTrig maxI (acc ++ pr.newItems).length then
        (.ok (takeMax maxI (acc ++ pr.newItems), cur), calls + 1)
      else if truthy pr.nextCur then
        agg_loop ext fetch maxI fuel (calls + 1) pr.nextCur seen' (acc ++ pr.newItems)
      else (.ok (acc ++ pr.newItems, cur), calls + 1)

/-- `InstagramService.get_user_feed(user_id, next_max_id, max_items)` with
the upstream abstracted into `fetch`; result plus fetch-call count. -/
def get_user_feed_run (fetch : Nat → Json → Except UpError Json) (initCur : Json)
    (maxI : Option Nat) : (Except AggErr (List Json × Json)) × Nat :=
  agg_loop extract_posts fetch maxI 50 0 initCur [] []

/-- `InstagramService.get_video_feed`: the same loop with the video-shape
decoder. -/
def get_video_feed_run (fetch : Nat → Json → Except UpError Json) (initCur : Json)
    (maxI : Option Nat) : (Except AggErr (List Json × Json)) × Nat :=
  agg_loop extract_videos fetch maxI 50 0 initCur [] []

/-- `InstagramService.get_user_reels` (lines 862-927): the whole body sits
in `try: ... except Exception: return []`, so a failed fetch collapses to
the empty list; the reels decoder itself cannot raise. -/
def get_user_reels (fr : Except UpError Json) : List Json :=
  match fr with
  | .error _ => []
  | .ok j => extract_reels j

/-!
### RapidAPIClient.get  (src/services/rapidapi.py lines 46-169)

One logical call is driven by an oracle giving the outcome of each HTTP
attempt.  The result is paired with the number of HTTP attempts made.
-/

inductive HttpOutcome : Type where
  | ok : Json → HttpOutcome
  | badJson : HttpOutcome
  | status : Nat → HttpOutcome
  | timeout : HttpOutcome
  | connFail : HttpOutcome
  | reqExc : HttpOutcome
deriving Repr

/-- The `for attempt in range(retries)` loop; `attempt` is the current
index and `fuel` the remaining iterations.  In the `HTTPError` handler
`status_code` is always `None` (line 131: `e.response` is falsy for every
error status, since `requests.Response` truthiness is `self.ok`), so the
429/404/401/403/400 dispatch at lines 133-146 never fires and EVERY HTTP
error — whatever its status — takes the generic path of lines 147-151:
retried after a 1-second sleep and, on the last attempt, raised as the
generic `RequestException(f"HTTP {status_code} error: ...")`.  Timeouts
and connection failures are retried the same way (lines 152-167); a
non-JSON 200 body raises `ValueError` at once (lines 126-128). -/
def rapidapi_get_aux (outcomes : Nat → HttpOutcome) (retries : Nat) :
    Nat → Nat → Except UpError Json × Nat
  | _, 0 => (.error .fellThrough, 0)
  | attempt, fuel + 1 =>
    match outcomes attempt with
    | .ok body => (.ok body, 1)
    | .badJson => (.error .invalidJson, 1)
    | .status _ =>
      if attempt == retries - 1 then (.error .httpExhausted, 1)
      else
        let r := rapidapi_get_aux outcomes retries (attempt + 1) fuel
        (r.1, r.2 + 1)
    | .timeout =>
      if attempt == retries - 1 then (.error .timeoutExhausted, 1)
      else
        let r := rapidapi_get_aux outcomes retries (attempt + 1) fuel
        (r.1, r.2 + 1)
    | .connFail =>
      if attempt == retries - 1 then (.error .connExhausted, 1)
      else
        let r := rapidapi_get_aux outcomes retries (attempt + 1) fuel
        (r.1, r.2 + 1)
    | .reqExc =>
      if attempt == retries - 1 then (.error .reqExhausted, 1)
      else
        let r := rapidapi_get_aux outcomes retries (attempt + 1) fuel
        (r.1, r.2 + 1)

/-- `RapidAPIClient.get(endpoint, params, retries)` (default `retries=3`). -/
def rapidapi_get (outcomes : Nat → HttpOutcome) (retries : Nat) :
    Except UpError Json × Nat :=
  rapidapi_get_aux outcomes retries 0 retries

example : rapidapi_get (fun _ => .status 404) 3 = (.error .httpExhausted, 3) := rfl
example : rapidapi_get (fun _ => .status 429) 3 = (.error .httpExhausted, 3) := rfl
example : rapidapi_get (fun _ => .timeout) 3 = (.error .timeoutExhausted, 3) := rfl
example : rapidapi_get (fun i => if i < 2 then .status 429 else .ok .null) 3 = (.ok .null, 3) := rfl
example : rapidapi_get (fun _ => .badJson) 3 = (.error .invalidJson, 1) := rfl

-- scratch full-run tests (concrete oracles used later by the claim theorems)

/-- Scenario A/C7 oracle: page 1 has three captioned items and a cursor,
page 2 repeats the same three items with a fresh cursor. -/
def itemA1 : Json := Json.obj [("caption", Json.str "alpha")]
def itemA2 : Json := Json.obj [("caption", Json.str "beta")]
def itemA3 : Json := Json.obj [("caption", Json.str "gamma")]

def pageA1 : Json :=
  Json.obj [("items", Json.arr [itemA1, itemA2, itemA3]), ("next_max_id", Json.str "CUR1")]

def pageA2 : Json :=
  Json.obj [("items", Json.arr [itemA1, itemA2, itemA3]), ("next_max_id", Json.str "CUR2")]

def fetchA : Nat → Json → Except UpError Json :=
  fun i _ => if i == 0 then .ok pageA1 else if i == 1 then .ok pageA2 else .error .httpExhausted

example :
    get_user_feed_run fetchA Json.null none =
      (.ok ([itemA1, itemA2, itemA3], Json.str "CUR1"), 2) := rfl

/-- Scenario B oracle (claim C3): page 1 returns two new items and a
cursor; every later fetch is the result of `RapidAPIClient.get` meeting
three consecutive HTTP 429 responses — which, with the status dispatch
dead (line 131), exhausts the budget and raises the generic
`RequestException`. -/
def itemB1 : Json := Json.obj [("caption", Json.str "one")]
def itemB2 : Json := Json.obj [("caption", Json.str "two")]

def pageB1 : Json :=
  Json.obj [("items", Json.arr [itemB1, itemB2]), ("next_max_id", Json.str "B2")]

def fetchB : Nat → Json → Except UpError Json :=
  fun i _ => if i == 0 then .ok pageB1 else (rapidapi_get (fun _ => .status 429) 3).1

example :
    get_user_feed_run fetchB Json.null none = (.error (.up .httpExhausted), 2) := rfl

/-- Claim C1 counterexample oracle: a single page with one item and no
cursor. -/
def itemK : Json := Json.obj [("id", Json.num 7)]

def fetchK : Nat → Json → Except UpError Json :=
  fun _ _ => .ok (Json.obj [("items", Json.arr [itemK])])

example :
    get_user_feed_run fetchK Json.null (some 0) = (.ok ([itemK], Json.null), 1) := rfl
example :
    get_user_feed_run fetchK Json.null (some 1) = (.ok ([itemK], Json.null), 1) := rfl
example :
    get_user_feed_run fetchK Json.null none = (.ok ([itemK], Json.null), 1) := rfl
example :
    get_video_feed_run fetchK Json.null (some 1) = (.ok ([itemK], Json.null), 1) := rfl
example :
    get_video_feed_run fetchK Json.null none = (.ok ([itemK], Json.null), 1) := rfl

/-- Claim C10 oracle: page 1's item has only an image URL `"u"`; page 2's
item has caption text `"u"` (its trimmed 100-character caption key is the
string recorded as an image URL). -/
def itemU1 : Json := Json.obj [("image_url", Json.str "u")]
def itemU2 : Json := Json.obj [("caption", Json.str "u"), ("id", Json.num 9)]

def fetchU : Nat → Json → Except UpError Json :=
  fun i _ =>
    if i == 0 then .ok (Json.obj [("items", Json.arr [itemU1]), ("next_max_id", Json.str "U2")])
    else .ok (Json.obj [("items", Json.arr [itemU2])])

example :
    get_user_feed_run fetchU Json.null none = (.ok ([itemU1], Json.str "U2"), 2) := rfl

/-- Claim C2 counterexample items: the second item is a duplicate via its
caption key, so its (present) image-URL key `"u"` is never recorded. -/
def itemC1 : Json := Json.obj [("caption", Json.str "a")]
def itemC2 : Json := Json.obj [("caption", Json.str "a"), ("image_url", Json.str "u")]

example :
    process_page [] [itemC1, itemC2] =
      .ok ⟨[Json.str "a"], [itemC1], true⟩ := rfl
example : pyMem (Json.str "u") [Json.str "a"] = false := rfl
example : extract_image_url itemC2 = .ok (Json.str "u") := rfl

-- claim C8 shapes
def wrapDataItems (its : List Json) : Json :=
  Json.obj [("data", Json.obj [("items", Json.arr its)])]

example : extract_posts (wrapDataItems [Json.str "x"]) = .ok (.arr []) := rfl

/-!
### Helper lemmas about the loops
-/

theorem agg_loop_calls_le (ext : Json → Except PyErr Json)
    (fetch : Nat → Json → Except UpError Json) (maxI : Option Nat) :
    ∀ fuel calls cur seen acc,
      (agg_loop ext fetch maxI fuel calls cur seen acc).2 ≤ calls + fuel := by
  intro fuel
  induction fuel with
  | zero => intro calls cur seen acc; simp [agg_loop]
  | succ f ih =>
    intro calls cur seen acc
    simp only [agg_loop]
    cases hps : page_step ext (fetch calls cur) seen with
    | error e => simp
    | ok prs =>
      obtain ⟨pr, seen'⟩ := prs
      simp only
      split
      · simp
      · split
        · simp
        · split
          · have := ih (calls + 1) pr.nextCur seen' (acc ++ pr.newItems)
            omega
          · simp

theorem page_step_fetch_error (ext : Json → Except PyErr Json) (e : UpError)
    (seen : List Json) :
    page_step ext (.error e) seen = .error (.up e) := rfl

theorem agg_loop_fetch_error (ext : Json → Except PyErr Json)
    (fetch : Nat → Json → Except UpError Json) (maxI : Option Nat)
    (fuel calls : Nat) (cur : Json) (seen acc : List Json) (e : UpError)
    (h : fetch calls cur = .error e) :
    agg_loop ext fetch maxI (fuel + 1) calls cur seen acc = (.error (.up e), calls + 1) := by
  simp only [agg_loop, h, page_step_fetch_error]

theorem agg_loop_dup_stop (ext : Json → Except PyErr Json)
    (fetch : Nat → Json → Except UpError Json) (maxI : Option Nat)
    (fuel calls : Nat) (cur : Json) (seen acc : List Json)
    (pr : PageOut) (seen' : List Json)
    (hps : page_step ext (fetch calls cur) seen = .ok (pr, seen'))
    (hdup : pr.dupFound = true) (hnew : pr.newItems = []) :
    agg_loop ext fetch maxI (fuel + 1) calls cur seen acc = (.ok (acc, cur), calls + 1) := by
  simp [agg_loop, hps, hdup, hnew]

theorem agg_loop_some_len_le (ext : Json → Except PyErr Json)
    (fetch : Nat → Json → Except UpError Json) (k : Nat) (hk : 0 < k) :
    ∀ fuel calls cur seen acc, acc.length < k →
      ∀ items c, (agg_loop ext fetch (some k) fuel calls cur seen acc).1 = .ok (items, c) →
        items.length ≤ k := by
  intro fuel
  induction fuel with
  | zero =>
    intro calls cur seen acc hacc items c h
    simp [agg_loop] at h
    obtain ⟨h1, _⟩ := h
    subst h1
    omega
  | succ f ih =>
    intro calls cur seen acc hacc items c h
    simp only [agg_loop] at h
    cases hps : page_step ext (fetch calls cur) seen with
    | error e => rw [hps] at h; simp at h
    | ok prs =>
      obtain ⟨pr, seen'⟩ := prs
      rw [hps] at h
      simp only at h
      by_cases hd : (pr.dupFound && pr.newItems.isEmpty) = true
      · rw [if_pos hd] at h
        simp at h
        obtain ⟨h1, _⟩ := h
        subst h1
        omega
      · rw [if_neg hd] at h
        by_cases hm : maxTrig (some k) (acc ++ pr.newItems).length = true
        · rw [if_pos hm] at h
          simp [takeMax] at h
          obtain ⟨h1, _⟩ := h
          subst h1
          simp [List.length_take]
        · rw [if_neg hm] at h
          by_cases hc : truthy pr.nextCur = true
          · rw [if_pos hc] at h
            have hlen : (acc ++ pr.newItems).length < k := by
              simp [maxTrig] at hm
              simpa using hm hk
            exact ih (calls + 1) pr.nextCur seen' (acc ++ pr.newItems) hlen items c h
          · rw [if_neg hc] at h
            simp at h
            obtain ⟨h1, _⟩ := h
            subst h1
            have hlen : (acc ++ pr.newItems).length < k := by
              simp [maxTrig] at hm
              simpa using hm hk
            omega

theorem agg_loop_none_some_exact (ext : Json → Except PyErr Json)
    (fetch : Nat → Json → Except UpError Json) (k : Nat) (hk : 0 < k) :
    ∀ fuel calls cur seen acc, acc.length < k →
      ∀ items c, (agg_loop ext fetch none fuel calls cur seen acc).1 = .ok (items, c) →
        k ≤ items.length →
        ∃ items' c',
          (agg_loop ext fetch (some k) fuel calls cur seen acc).1 = .ok (items', c') ∧
            items'.length = k := by
  intro fuel
  induction fuel with
  | zero =>
    intro calls cur seen acc hacc items c h hge
    simp [agg_loop] at h
    obtain ⟨h1, _⟩ := h
    subst h1
    omega
  | succ f ih =>
    intro calls cur seen acc hacc items c h hge
    simp only [agg_loop] at h ⊢
    cases hps : page_step ext (fetch calls cur) seen with
    | error e => rw [hps] at h; simp at h
    | ok prs =>
      obtain ⟨pr, seen'⟩ := prs
      rw [hps] at h
      simp only at h ⊢
      by_cases hd : (pr.dupFound && pr.newItems.isEmpty) = true
      · rw [if_pos hd] at h ⊢
        simp at h
        obtain ⟨h1, _⟩ := h
        subst h1
        omega
      · rw [if_neg hd] at h ⊢
        rw [if_neg (by simp [maxTrig] : ¬ maxTrig none (acc ++ pr.newItems).length = true)] at h
        by_cases hm : maxTrig (some k) (acc ++ pr.newItems).length = true
        · rw [if_pos hm]
          refine ⟨takeMax (some k) (acc ++ pr.newItems), cur, by simp, ?_⟩
          simp [maxTrig] at hm
          simp [takeMax, List.length_take]
          omega
        · rw [if_neg hm]
          have hlen : (acc ++ pr.newItems).length < k := by
            simp [maxTrig] at hm
            simpa using hm hk
          by_cases hc : truthy pr.nextCur = true
          · rw [if_pos hc] at h ⊢
            exact ih (calls + 1) pr.nextCur seen' (acc ++ pr.newItems) hlen items c h hge
          · rw [if_neg hc] at h
            simp at h
            obtain ⟨h1, _⟩ := h
            subst h1
            omega

theorem process_post_text_dup (seen np : List Json) (df : Bool) (post : Json)
    (t : String) (v : Json)
    (htk : post_text_key post = .ok (some t))
    (hmem : pyMem (Json.str t) seen = true)
    (himg : post_image_of post = .ok v) :
    process_post ⟨seen, np, df⟩ post = .ok ⟨seen, np, true⟩ := by
  simp [process_post, himg, htk, hmem, bind, Except.bind, Functor.map, Except.map, pure, Except.pure]

theorem process_post_img_dup (seen np : List Json) (df : Bool) (post : Json) (v : Json)
    (htk : post_text_key post = .ok none)
    (himg : post_image_of post = .ok v)
    (htr : truthy v = true) (hh : hashable v = true)
    (hmem : pyMem v seen = true) :
    process_post ⟨seen, np, df⟩ post = .ok ⟨seen, np, true⟩ := by
  simp [process_post, himg, htk, htr, hh, hmem, bind, Except.bind, Functor.map, Except.map, pure, Except.pure]

theorem extract_image_url_no_keys (fs : List (String × Json))
    (h1 : fieldLookup fs "image_url" = none)
    (h2 : fieldLookup fs "image_versions2" = none)
    (h3 : fieldLookup fs "cover_photo" = none)
    (h4 : fieldLookup fs "thumbnail_url" = none)
    (h5 : fieldLookup fs "video_versions" = none)
    (h6 : fieldLookup fs "carousel_media" = none) :
    extract_image_url (Json.obj fs) = .ok .null := by
  show extract_image_url_fuel (999 + 1) (Json.obj fs) = .ok .null
  simp [extract_image_url_fuel, h1, h2, h3, h4, h5, h6]

theorem extract_image_url_non_dict (j : Json) (h : j.isObj = false) :
    extract_image_url j = .ok .null := by
  cases j <;> simp_all [Json.isObj] <;> rfl

theorem extract_posts_no_keys (fs : List (String × Json))
    (h1 : fieldLookup fs "data" = none)
    (h2 : fieldLookup fs "items" = none)
    (h3 : fieldLookup fs "posts" = none)
    (h4 : fieldLookup fs "feed" = none)
    (h5 : fieldLookup fs "user" = none) :
    extract_posts (Json.obj fs) = .ok (.arr []) := by
  simp [extract_posts, h1, h2, h3, h4, h5, pure, Except.pure]

/-- The media-unwrapping rule as the spec words it (claim C8), as a
`filterMap`: dict elements carrying `media` contribute the inner value,
dict elements without it contribute themselves, and non-dict elements
are dropped. -/
def specMediaUnwrap (items : List Json) : List Json :=
  items.filterMap (fun it =>
    match it with
    | .obj fs =>
      match fieldLookup fs "media" with
      | some m => some m
      | none => some it
    | _ => none)

theorem unwrapMedia_foldl_append (its : List Json) :
    ∀ acc, its.foldl mediaStep acc = acc ++ specMediaUnwrap its := by
  induction its with
  | nil => intro acc; simp [specMediaUnwrap]
  | cons x rest ih =>
    intro acc
    simp only [List.foldl_cons, specMediaUnwrap, List.filterMap_cons]
    cases x with
    | obj fs =>
      cases hm : fieldLookup fs "media" with
      | some m => simp [mediaStep, hm, ih, specMediaUnwrap]
      | none => simp [mediaStep, hm, ih, specMediaUnwrap]
    | null => simp [mediaStep, ih, specMediaUnwrap]
    | bool b => simp [mediaStep, ih, specMediaUnwrap]
    | num n => simp [mediaStep, ih, specMediaUnwrap]
    | str s => simp [mediaStep, ih, specMediaUnwrap]
    | arr xs => simp [mediaStep, ih, specMediaUnwrap]

theorem unwrapMedia_eq_spec (its : List Json) : unwrapMedia its = specMediaUnwrap its := by
  simpa using unwrapMedia_foldl_append its []

/-!
### Claim theorems
-/

/-- Claim C1, counterexample: with `max_items = 0` the Python truthiness
test `if max_items and ...` skips the bound entirely, so a single page
with one item yields a result of length 1 > 0. -/
theorem c1_counterexample :
    (get_user_feed_run fetchK Json.null (some 0)).1 = .ok ([itemK], Json.null) ∧
      ¬ ([itemK].length ≤ 0) :=
  ⟨rfl, by decide⟩

/-- Claim C1 (amended to `k ≥ 1`): for every upstream oracle and initial
cursor, a run of `get_user_feed` (and `get_video_feed`) with
`max_items = k ≥ 1` returns at most `k` items, and whenever the unbounded
run returns at least `k` items the bounded run returns exactly `k` (the
final page's contribution is truncated). -/
theorem c1_max_items_amended (fetch : Nat → Json → Except UpError Json) (cur : Json)
    (k : Nat) (hk : 1 ≤ k) :
    (∀ items c, (get_user_feed_run fetch cur (some k)).1 = .ok (items, c) →
      items.length ≤ k) ∧
    (∀ items c, (get_user_feed_run fetch cur none).1 = .ok (items, c) →
      k ≤ items.length →
      ∃ items' c', (get_user_feed_run fetch cur (some k)).1 = .ok (items', c') ∧
        items'.length = k) ∧
    (∀ items c, (get_video_feed_run fetch cur (some k)).1 = .ok (items, c) →
      items.length ≤ k) ∧
    (∀ items c, (get_video_feed_run fetch cur none).1 = .ok (items, c) →
      k ≤ items.length →
      ∃ items' c', (get_video_feed_run fetch cur (some k)).1 = .ok (items', c') ∧
        items'.length = k) := by
  have hk0 : 0 < k := hk
  have hlen : ([] : List Json).length < k := by simpa using hk0
  refine ⟨?_, ?_, ?_, ?_⟩
  · intro items c h
    exact agg_loop_some_len_le extract_posts fetch k hk0 50 0 cur [] [] hlen items c h
  · intro items c h hge
    exact agg_loop_none_some_exact extract_posts fetch k hk0 50 0 cur [] [] hlen items c h hge
  · intro items c h
    exact agg_loop_some_len_le extract_videos fetch k hk0 50 0 cur [] [] hlen items c h
  · intro items c h hge
    exact agg_loop_none_some_exact extract_videos fetch k hk0 50 0 cur [] [] hlen items c h hge

/-- Witness for C1 at `k = 1` and a one-page, one-item oracle. -/
theorem c1_witness :
    ([itemK].length ≤ 1) ∧
      (∃ items' c', (get_user_feed_run fetchK Json.null (some 1)).1 = .ok (items', c') ∧
        items'.length = 1) :=
  ⟨(c1_max_items_amended fetchK Json.null 1 (by decide)).1 [itemK] Json.null rfl,
   (c1_max_items_amended fetchK Json.null 1 (by decide)).2.1 [itemK] Json.null rfl (by decide)⟩

/-- Claim C2, counterexample: `itemC2` is classified a duplicate via its
caption key `"a"`, but its present image-URL key `"u"` is NOT recorded in
the seen set afterwards (the image and id checks are skipped once
`is_duplicate` is set), contradicting "ALL of its present candidate keys
are recorded". -/
theorem c2_counterexample :
    process_page [] [itemC1, itemC2] = .ok ⟨[Json.str "a"], [itemC1], true⟩ ∧
      extract_image_url itemC2 = .ok (Json.str "u") ∧
      pyMem (Json.str "u") [Json.str "a"] = false :=
  ⟨rfl, rfl, rfl⟩

/-- Claim C2 (amended): when an item is classified a duplicate via its
caption key, the seen set is left entirely unchanged — neither its image
URL nor its identifier key is recorded; only the keys checked before the
matching key are ever recorded. -/
theorem c2_recorded_keys_amended (seen np : List Json) (df : Bool) (post : Json)
    (t : String) (v : Json)
    (htk : post_text_key post = .ok (some t))
    (hmem : pyMem (Json.str t) seen = true)
    (himg : post_image_of post = .ok v) :
    process_post ⟨seen, np, df⟩ post = .ok ⟨seen, np, true⟩ :=
  process_post_text_dup seen np df post t v htk hmem himg

/-- Witness for C2 at the concrete duplicate item. -/
theorem c2_witness :
    process_post ⟨[Json.str "a"], [], false⟩ itemC2 = .ok ⟨[Json.str "a"], [], true⟩ :=
  c2_recorded_keys_amended [Json.str "a"] [] false itemC2 "a" (Json.str "u") rfl rfl rfl

/-- Claim C3: an upstream fetch error at any point of the pagination
aborts the whole aggregation with that error — the items accumulated from
earlier pages are discarded.  Second conjunct: three consecutive HTTP 429
responses exhaust `RapidAPIClient.get`'s retry budget after exactly three
attempts and raise (the generic `RequestException`, since the
status-specific classification at lines 133-146 is dead code — line 131's
`if e.response` is always falsy for an error status).  Third conjunct
(Scenario B): page 1 with two items and a cursor followed by a
429-exhausted page 2 raises that error after the second fetch call,
returning no partial two-item result. -/
theorem c3_error_propagation :
    (∀ (ext : Json → Except PyErr Json) (fetch : Nat → Json → Except UpError Json)
      (maxI : Option Nat) (fuel calls : Nat) (cur : Json) (seen acc : List Json)
      (e : UpError), fetch calls cur = .error e →
        agg_loop ext fetch maxI (fuel + 1) calls cur seen acc = (.error (.up e), calls + 1)) ∧
    rapidapi_get (fun _ => .status 429) 3 = (.error .httpExhausted, 3) ∧
    get_user_feed_run fetchB Json.null none = (.error (.up .httpExhausted), 2) :=
  ⟨fun ext fetch maxI fuel calls cur seen acc e h =>
    agg_loop_fetch_error ext fetch maxI fuel calls cur seen acc e h, rfl, rfl⟩

/-- Witness for C3: a fetch that fails at once makes the loop return that
error with no items. -/
theorem c3_witness :
    agg_loop extract_posts (fun _ _ => .error .httpExhausted) none 1 0 Json.null [] [] =
      (.error (.up .httpExhausted), 1) :=
  c3_error_propagation.1 extract_posts (fun _ _ => .error .httpExhausted) none 0 0 Json.null [] []
    .httpExhausted rfl

/-- Every error the fetch loop can actually produce: the bad-JSON
`ValueError`, the generic HTTP / timeout / connection / request
exhaustion errors, or the fall-through raise.  The status-classified
errors of the dead branches (lines 133-146) are never produced. -/
theorem rapidapi_no_status_dispatch (outcomes : Nat → HttpOutcome) (retries : Nat) :
    ∀ fuel attempt e, (rapidapi_get_aux outcomes retries attempt fuel).1 = .error e →
      e = .invalidJson ∨ e = .httpExhausted ∨ e = .timeoutExhausted ∨
        e = .connExhausted ∨ e = .reqExhausted ∨ e = .fellThrough := by
  intro fuel
  induction fuel with
  | zero =>
    intro attempt e h
    simp [rapidapi_get_aux] at h
    simp [← h]
  | succ f ih =>
    intro attempt e h
    simp only [rapidapi_get_aux] at h
    cases ho : outcomes attempt <;> rw [ho] at h <;> simp at h
    case badJson => simp [← h]
    case status c =>
      split at h
      · simp at h
        simp [← h]
      · exact ih (attempt + 1) e h
    case timeout =>
      split at h
      · simp at h
        simp [← h]
      · exact ih (attempt + 1) e h
    case connFail =>
      split at h
      · simp at h
        simp [← h]
      · exact ih (attempt + 1) e h
    case reqExc =>
      split at h
      · simp at h
        simp [← h]
      · exact ih (attempt + 1) e h

/-- Claim C4 (code bug): the fail-fast dispatch the claim (and the code's
own raise messages and docstring at rapidapi.py lines 56-60, 133-146)
describe is dead code — line 131's `if e.response` is always falsy for an
error status, so `status_code` is always `None`.  Evaluating the code at
the failing inputs: a 404 (and equally 401, 403, 400 and 429) is retried
through all three attempts and then raises the generic
`RequestException`, never the not-found / auth / bad-request / rate-limit
classification; and no run of the fetcher at any budget can produce one
of those four classified errors. -/
theorem c4_dead_dispatch :
    rapidapi_get (fun _ => .status 404) 3 = (.error .httpExhausted, 3) ∧
    rapidapi_get (fun _ => .status 401) 3 = (.error .httpExhausted, 3) ∧
    rapidapi_get (fun _ => .status 403) 3 = (.error .httpExhausted, 3) ∧
    rapidapi_get (fun _ => .status 400) 3 = (.error .httpExhausted, 3) ∧
    rapidapi_get (fun _ => .status 429) 3 = (.error .httpExhausted, 3) ∧
    rapidapi_get (fun _ => .timeout) 3 = (.error .timeoutExhausted, 3) ∧
    rapidapi_get (fun _ => .connFail) 3 = (.error .connExhausted, 3) ∧
    (∀ (outcomes : Nat → HttpOutcome) (retries fuel attempt : Nat) (e : UpError),
      (rapidapi_get_aux outcomes retries attempt fuel).1 = .error e →
        e = .invalidJson ∨ e = .httpExhausted ∨ e = .timeoutExhausted ∨
          e = .connExhausted ∨ e = .reqExhausted ∨ e = .fellThrough) :=
  ⟨rfl, rfl, rfl, rfl, rfl, rfl, rfl,
   fun outcomes retries fuel attempt e h =>
    rapidapi_no_status_dispatch outcomes retries fuel attempt e h⟩

/-- Witness for C4's classification-range conjunct at the all-404 oracle. -/
theorem c4_witness :
    UpError.httpExhausted = .invalidJson ∨ UpError.httpExhausted = .httpExhausted ∨
      UpError.httpExhausted = .timeoutExhausted ∨ UpError.httpExhausted = .connExhausted ∨
      UpError.httpExhausted = .reqExhausted ∨ UpError.httpExhausted = .fellThrough :=
  c4_dead_dispatch.2.2.2.2.2.2.2 (fun _ => .status 404) 3 3 0 .httpExhausted rfl

/-- Claim C5: for every upstream oracle, initial cursor and item bound,
the aggregation issues at most 50 upstream fetch calls (and, being a
total function, always terminates). -/
theorem c5_page_bound (fetch : Nat → Json → Except UpError Json) (cur : Json)
    (maxI : Option Nat) :
    (get_user_feed_run fetch cur maxI).2 ≤ 50 ∧
      (get_video_feed_run fetch cur maxI).2 ≤ 50 :=
  ⟨by simpa using agg_loop_calls_le extract_posts fetch maxI 50 0 cur [] [],
   by simpa using agg_loop_calls_le extract_videos fetch maxI 50 0 cur [] []⟩

example :
    page_step extract_posts (fetchA 1 (Json.str "CUR1"))
      [Json.str "alpha", Json.str "beta", Json.str "gamma"] =
    .ok (⟨[], true, Json.str "CUR2"⟩,
      [Json.str "alpha", Json.str "beta", Json.str "gamma"]) := rfl

/-- Claim C6, counterexample: a non-dict value under a recognized field
makes the code raise — `extract_image_url` hits `AttributeError` on
`{"image_versions2": 5}` (line 526 calls `.get` on a non-dict), and the
feed decoding hits `TypeError` on `{"user": 0}` (line 130 runs `in` on a
non-container) — contradicting "never raise an exception". -/
theorem c6_counterexample :
    extract_image_url (Json.obj [("image_versions2", Json.num 5)]) =
        .error .attributeError ∧
      extract_posts (Json.obj [("user", Json.num 0)]) = .error .typeError :=
  ⟨rfl, rfl⟩

/-- Claim C6 (amended): the normalizer and fingerprinter never raise for
ABSENT structure — a non-dict item yields no image key, a dict with none
of the recognized image fields yields no image key, a response object
with none of the recognized feed fields yields an empty item sequence,
and the video-shape decoder never raises at all — but a wrongly-typed
value under a recognized field can raise (see the counterexample). -/
theorem c6_no_raise_amended :
    (∀ j : Json, j.isObj = false → extract_image_url j = .ok .null) ∧
    (∀ fs : List (String × Json),
      fieldLookup fs "image_url" = none →
      fieldLookup fs "image_versions2" = none →
      fieldLookup fs "cover_photo" = none →
      fieldLookup fs "thumbnail_url" = none →
      fieldLookup fs "video_versions" = none →
      fieldLookup fs "carousel_media" = none →
      extract_image_url (Json.obj fs) = .ok .null) ∧
    (∀ fs : List (String × Json),
      fieldLookup fs "data" = none →
      fieldLookup fs "items" = none →
      fieldLookup fs "posts" = none →
      fieldLookup fs "feed" = none →
      fieldLookup fs "user" = none →
      extract_posts (Json.obj fs) = .ok (.arr [])) ∧
    (∀ fd : Json, ∃ v, extract_videos fd = .ok v) :=
  ⟨extract_image_url_non_dict,
   extract_image_url_no_keys,
   extract_posts_no_keys,
   fun _ => ⟨_, rfl⟩⟩

/-- Witness for C6 at a field list with no recognized keys. -/
theorem c6_witness :
    extract_image_url (Json.obj [("zz", Json.num 1)]) = .ok .null ∧
      extract_posts (Json.obj [("zz", Json.num 1)]) = .ok (.arr []) :=
  ⟨c6_no_raise_amended.2.1 [("zz", Json.num 1)] rfl rfl rfl rfl rfl rfl,
   c6_no_raise_amended.2.2.1 [("zz", Json.num 1)] rfl rfl rfl rfl rfl⟩

/-- Claim C7: a page whose items are all classified duplicates (at least
one duplicate found, zero net-new items) stops the pagination at once —
no further fetch is made even when the response carries a next cursor —
and concretely (Scenario A with a cursor on page 2): page 1 with three
items and a cursor followed by page 2 repeating them yields exactly those
three items after exactly two fetch calls, with the page-1 cursor. -/
theorem c7_duplicate_stop :
    (∀ (ext : Json → Except PyErr Json) (fetch : Nat → Json → Except UpError Json)
      (maxI : Option Nat) (fuel calls : Nat) (cur : Json) (seen acc : List Json)
      (pr : PageOut) (seen' : List Json),
      page_step ext (fetch calls cur) seen = .ok (pr, seen') →
      pr.dupFound = true → pr.newItems = [] →
      agg_loop ext fetch maxI (fuel + 1) calls cur seen acc = (.ok (acc, cur), calls + 1)) ∧
    get_user_feed_run fetchA Json.null none =
      (.ok ([itemA1, itemA2, itemA3], Json.str "CUR1"), 2) :=
  ⟨fun ext fetch maxI fuel calls cur seen acc pr seen' hps hdup hnew =>
    agg_loop_dup_stop ext fetch maxI fuel calls cur seen acc pr seen' hps hdup hnew, rfl⟩

/-- Witness for C7 at the Scenario A page-2 state. -/
theorem c7_witness :
    agg_loop extract_posts fetchA none 49 1 (Json.str "CUR1")
      [Json.str "alpha", Json.str "beta", Json.str "gamma"] [itemA1, itemA2, itemA3] =
    (.ok ([itemA1, itemA2, itemA3], Json.str "CUR1"), 2) :=
  c7_duplicate_stop.1 extract_posts fetchA none 48 1 (Json.str "CUR1")
    [Json.str "alpha", Json.str "beta", Json.str "gamma"] [itemA1, itemA2, itemA3]
    ⟨[], true, Json.str "CUR2"⟩
    [Json.str "alpha", Json.str "beta", Json.str "gamma"] rfl rfl rfl

/-- Claim C8, counterexample: in `{"data": {"items": ["x"]}}` the list
element `"x"` carries no `media` key, yet it is NOT yielded — non-dict
elements are silently dropped by the unwrapping loop (the claim says the
element itself is yielded). -/
theorem c8_counterexample :
    extract_posts (wrapDataItems [Json.str "x"]) = .ok (.arr []) ∧
      Json.arr ([] : List Json) ≠ Json.arr [Json.str "x"] :=
  ⟨rfl, by simp⟩

/-- Claim C8 (amended): for a `{"data": {"items": [...]}}` response, dict
elements carrying a `media` key yield the inner `media` value, dict
elements without one yield themselves, non-dict elements are dropped, and
order is preserved (the decoding equals the order-preserving
`filterMap` `specMediaUnwrap`). -/
theorem c8_media_unwrap_amended (its : List Json) :
    extract_posts (wrapDataItems its) = .ok (.arr (specMediaUnwrap its)) := by
  rw [← unwrapMedia_eq_spec]
  rfl

/-- Claim C9: `get_user_reels` wraps its whole body in
`try: ... except Exception: return []`, so a raising fetch collapses to
the empty list, a successful fetch yields exactly the (total, non-raising)
reels decoding, and a caller cannot distinguish a failed fetch from a
user with zero reels. -/
theorem c9_reels_swallow_errors (e : UpError) (j : Json) :
    get_user_reels (.error e) = [] ∧
      get_user_reels (.ok j) = extract_reels j ∧
      get_user_reels (.ok (Json.obj [])) = [] :=
  ⟨rfl, rfl, rfl⟩

/-- Claim C10: caption keys and image-URL keys live in one shared,
untagged seen set (ids alone carry the `id_` tag), so an item whose
trimmed 100-character caption key equals ANY recorded set member — for
example an image URL recorded by an earlier item — is classified a
duplicate and excluded, and symmetrically for an image URL matching an
earlier caption key; concretely, a page-1 item with only image URL `"u"`
followed by a page-2 item captioned `"u"` yields just the first item. -/
theorem c10_shared_seen_set :
    (∀ (seen np : List Json) (df : Bool) (post : Json) (t : String) (v : Json),
      post_text_key post = .ok (some t) → pyMem (Json.str t) seen = true →
      post_image_of post = .ok v →
      ∃ st' : DState, process_post ⟨seen, np, df⟩ post = .ok st' ∧
        st'.newPosts = np ∧ st'.dupFound = true) ∧
    (∀ (seen np : List Json) (df : Bool) (post : Json) (v : Json),
      post_text_key post = .ok none → post_image_of post = .ok v →
      truthy v = true → hashable v = true → pyMem v seen = true →
      ∃ st' : DState, process_post ⟨seen, np, df⟩ post = .ok st' ∧
        st'.newPosts = np ∧ st'.dupFound = true) ∧
    get_user_feed_run fetchU Json.null none = (.ok ([itemU1], Json.str "U2"), 2) :=
  ⟨fun seen np df post t v htk hmem himg =>
    ⟨⟨seen, np, true⟩, process_post_text_dup seen np df post t v htk hmem himg, rfl, rfl⟩,
   fun seen np df post v htk himg htr hh hmem =>
    ⟨⟨seen, np, true⟩, process_post_img_dup seen np df post v htk himg htr hh hmem, rfl, rfl⟩,
   rfl⟩

/-- Witness for C10: the page-2 item of the concrete scenario, whose
caption key `"u"` matches the image URL recorded by the page-1 item. -/
theorem c10_witness :
    ∃ st' : DState, process_post ⟨[Json.str "u"], [], false⟩ itemU2 = .ok st' ∧
      st'.newPosts = [] ∧ st'.dupFound = true :=
  c10_shared_seen_set.1 [Json.str "u"] [] false itemU2 "u" Json.null rfl rfl rfl

-- additional faithfulness checks against the source
example :
    rapidapi_get (fun i => if i == 0 then .status 429 else .status 404) 3 =
      (.error .httpExhausted, 3) := rfl
example :
    rapidapi_get (fun i => if i == 0 then .timeout else .ok (Json.num 1)) 3 =
      (.ok (Json.num 1), 2) := rfl
example :
    extract_next_max_id (Json.obj [("data", Json.obj [("paging_info",
      Json.obj [("max_id", Json.str "p")])])]) = Json.str "p" := rfl
example :
    extract_next_max_id (Json.obj [("data", Json.obj [("max_id", Json.str "d")])]) =
      Json.str "d" := rfl
example :
    extract_next_max_id (Json.obj [("pagination", Json.obj [("next_cursor", Json.str "c")])]) =
      Json.str "c" := rfl
example : extract_next_max_id (Json.obj [("next_max_id", Json.str "")]) = Json.null := rfl
example :
    extract_videos (Json.obj [("videos", Json.str "vv")]) = .ok (Json.str "vv") := rfl
example :
    extract_reels (Json.arr [Json.str "x", Json.obj [("id", Json.num 1)]]) =
      [Json.obj [("id", Json.num 1)]] := rfl
example : get_user_reels (.error .httpExhausted) = [] := rfl
